import Mathlib

/-!
# Verification of youtube-upload (`youtube_upload/main.py`)

A shallow embedding of the upload-orchestration script `youtube_upload/main.py`.
Pure computations (string splitting/stripping, template formatting, the
category lookup, the exit-code table) are translated directly; raised Python
exceptions become `Except PyExc`; observable side effects (authentication
attempt, stdout lines, the vendor upload call, progress callbacks) are
recorded as an explicit `Event` trace.

Parts of the repository that are imported by `main.py` but whose source is
not available here (`youtube_upload.lib`, `youtube_upload.categories`,
`youtube_upload.auth`, `youtube_upload.upload_video`) are modelled from the
specification; each such definition's doc comment says so explicitly.
-/

deriving instance DecidableEq for Except

/-- Python exception classes that `main.py` raises, mentions in its
`EXIT_CODES` table, or that its stdlib/vendor calls can raise.
`main.py` lines 36-38 declare `InvalidCategory`, `OptionsMissing` and
`AuthenticationError`; the two oauth2client classes appear in lines 44-45. -/
inductive PyExc where
  | optionsMissing (msg : String)
  | invalidCategory (msg : String)
  | authenticationError (msg : String)
  | flowExchangeError
  | accessTokenCredentialsError
  | notImplementedError
  | zeroDivisionError
  | keyError (field : String)
  | valueError (msg : String)
  | other (name : String)
  deriving DecidableEq, Repr

/-- Observable effects of a run, in order of occurrence: the single
authentication attempt (`auth.get_resource`, line 144), the
"Start upload" stdout line (line 115), a progress-bar update (line 70),
a console percentage line (line 74), the `progress.finish()` invocation
(line 119), the vendor upload call itself (line 117, identified by the
zero-based file index and path), and the "Video URL" stdout line (line 151). -/
inductive Event where
  | authAttempt
  | startUpload (path title : String)
  | barUpdate (total_size completed : Nat)
  | consolePercent (total_size completed : Nat)
  | finishCall
  | vendorUpload (index : Nat) (path : String)
  | videoUrl (url : String)
  deriving DecidableEq, Repr

/-- The option fields of `main.py` lines 166-195 that the upload path reads.
Options with no `default=` are `None` in optparse, hence `Option String`;
`privacy` defaults to "public" (line 175), `title_template` to
"\x7btitle\x7d [\x7bn\x7d/\x7btotal\x7d]" (line 180) and `progress_type` to
"progress" (line 183). The authentication-only options (client secrets,
credentials file, access token, ca-certs, browser flag) are abstracted into
the authentication oracle of `run_main`. -/
structure Options where
  title : Option String := none
  category : Option String := none
  description : Option String := none
  tags : Option String := none
  privacy : String := "public"
  location : Option String := none
  title_template : String := "\x7btitle\x7d [\x7bn\x7d/\x7btotal\x7d]"
  progress_type : String := "progress"
  deriving DecidableEq, Repr

/-- The default of `--title-template` (`main.py` line 180). -/
def DEFAULT_TITLE_TEMPLATE : String := "\x7btitle\x7d [\x7bn\x7d/\x7btotal\x7d]"

/-- The default of `--progress-type` (`main.py` line 183). -/
def DEFAULT_PROGRESS_TYPE : String := "progress"

/-! ## Python string primitives used by `main.py` -/

/-- The character class stripped by Python's `str.strip()`:
space, tab, newline, carriage return, vertical tab, form feed. -/
def pyIsSpace (c : Char) : Bool :=
  c = ' ' || c = '\t' || c = '\n' || c = '\r' || c = '\x0b' || c = '\x0c'

/-- Python `str.strip()`: drop leading and trailing whitespace characters. -/
def pyStrip (s : String) : String :=
  String.mk (((s.data.dropWhile pyIsSpace).reverse.dropWhile pyIsSpace).reverse)

/-- Python `s.split(",")` over the character list: split at every comma,
keeping empty pieces; the empty string yields `[[]]` (one empty piece). -/
def splitCommaChars : List Char → List (List Char)
  | [] => [[]]
  | c :: rest =>
    if c = ',' then [] :: splitCommaChars rest
    else
      match splitCommaChars rest with
      | t :: ts => (c :: t) :: ts
      | [] => [[c]]

/-- Python `s.split(",")`. -/
def pySplitComma (s : String) : List String :=
  (splitCommaChars s.data).map String.mk

/-- The tag list placed in the request body (`main.py` line 103):
`map(str.strip, (options.tags or "").split(","))`.  `options.tags or ""`
turns both an absent and an empty tag string into `""`. -/
def tagList (tags : Option String) : List String :=
  (pySplitComma ((tags.getD ""))).map pyStrip

/-! ## `str.format` for the title template

`main.py` line 97 evaluates `options.title_template.format(**ns)` with
`ns = dict(title=title, n=index+1, total=total_videos)` (line 95).  The
embedding covers the subset of `str.format` this call site can exercise:
literal text, the doubled-brace escapes, and plain named fields looked up
in `ns` (an unknown field raises KeyError, an unmatched brace ValueError).
Conversion/format-spec suffixes such as `\x7btitle:>10\x7d` are not modelled
and surface as unknown fields. -/

/-- The field lookup for `format(**ns)` (`main.py` line 95): `title` maps to
the title (Python renders a `None` title as "None"), `n` to `index+1`,
`total` to `total_videos`, both integers rendered by `str`. -/
def formatLookup (title : Option String) (n total : Nat) : String → Option String
  | "title" => some (match title with | none => "None" | some t => t)
  | "n" => some (toString n)
  | "total" => some (toString total)
  | _ => none

mutual

/-- One pass of `str.format`, outside a replacement field: doubled braces
escape a literal brace, an opening brace starts a field (read by
`readFieldAux`), a lone closing brace is a ValueError, and every other
character is copied. -/
def pyFormatAux (title : Option String) (n total : Nat) :
    List Char → Except PyExc (List Char)
  | [] => Except.ok []
  | '\x7b' :: '\x7b' :: rest =>
    (fun l => '\x7b' :: l) <$> pyFormatAux title n total rest
  | '\x7d' :: '\x7d' :: rest =>
    (fun l => '\x7d' :: l) <$> pyFormatAux title n total rest
  | '\x7b' :: rest => readFieldAux title n total [] rest
  | '\x7d' :: _ =>
    Except.error (PyExc.valueError "Single brace encountered in format string")
  | c :: rest => (fun l => c :: l) <$> pyFormatAux title n total rest

/-- Inside a replacement field: `acc` is the reversed field name read so
far; a closing brace substitutes the field's value (KeyError on an unknown
field), end of input is an unmatched-brace ValueError. -/
def readFieldAux (title : Option String) (n total : Nat) :
    List Char → List Char → Except PyExc (List Char)
  | _, [] => Except.error (PyExc.valueError "Single brace encountered in format string")
  | acc, '\x7d' :: rest =>
    match formatLookup title n total (String.mk acc.reverse) with
    | some v => (fun l => v.data ++ l) <$> pyFormatAux title n total rest
    | none => Except.error (PyExc.keyError (String.mk acc.reverse))
  | acc, c :: rest => readFieldAux title n total (c :: acc) rest

end

/-- `template.format(title=..., n=..., total=...)` (`main.py` line 97). -/
def pyFormat (template : String) (title : Option String) (n total : Nat) :
    Except PyExc String :=
  String.mk <$> pyFormatAux title n total template.data

example : pyFormat DEFAULT_TITLE_TEMPLATE (some "My song") 1 2 =
    Except.ok "My song [1/2]" := by decide

example : pyFormat "a\x7b\x7bb\x7d\x7dc" (some "t") 1 2 =
    Except.ok "a\x7bb\x7dc" := by decide

example : pyFormat "\x7bbad\x7d" (some "t") 1 2 =
    Except.error (PyExc.keyError "bad") := by decide

example : tagList (some "a, b,c") = ["a", "b", "c"] := by decide

example : tagList none = [""] := by decide

/-! ## The substitution described by the specification

The specification describes line 97 as "title_template with
`\x7btitle\x7d` replaced by the title, `\x7bn\x7d` replaced by i+1,
`\x7btotal\x7d` replaced by N".  `specSubst` is that simultaneous
substitution of the three placeholders; `braceClean` singles out the
templates (the default one included) whose braces occur exactly as those
three placeholders, on which the description is meaningful. -/

/-- Simultaneous substitution of the three placeholders, per the
specification's words (values are inserted verbatim and not rescanned). -/
def specSubst (title : String) (n total : Nat) : List Char → List Char
  | '\x7b' :: 't' :: 'i' :: 't' :: 'l' :: 'e' :: '\x7d' :: rest =>
    title.data ++ specSubst title n total rest
  | '\x7b' :: 't' :: 'o' :: 't' :: 'a' :: 'l' :: '\x7d' :: rest =>
    (toString total).data ++ specSubst title n total rest
  | '\x7b' :: 'n' :: '\x7d' :: rest =>
    (toString n).data ++ specSubst title n total rest
  | c :: rest => c :: specSubst title n total rest
  | [] => []

/-- Every brace in the template belongs to one of the placeholders
`\x7btitle\x7d`, `\x7bn\x7d`, `\x7btotal\x7d`.  The default template
satisfies this. -/
def braceClean : List Char → Bool
  | '\x7b' :: 't' :: 'i' :: 't' :: 'l' :: 'e' :: '\x7d' :: rest => braceClean rest
  | '\x7b' :: 't' :: 'o' :: 't' :: 'a' :: 'l' :: '\x7d' :: rest => braceClean rest
  | '\x7b' :: 'n' :: '\x7d' :: rest => braceClean rest
  | '\x7b' :: _ => false
  | '\x7d' :: _ => false
  | _ :: rest => braceClean rest
  | [] => true

example : braceClean DEFAULT_TITLE_TEMPLATE.data = true := by decide

example : String.mk (specSubst "My song" 1 2 DEFAULT_TITLE_TEMPLATE.data) =
    "My song [1/2]" := by decide

/-! ## Progress reporting (`get_progress_info`, `main.py` lines 54-78) -/

/-- The three reporter variants `get_progress_info` can build: the
`progressbar` visual bar (lines 58-71), the `console` textual percentage
(lines 72-76), and the no-op fallback whose callback is `None` and whose
finish is `lambda: True` (line 78). -/
inductive ProgressVariant where
  | bar
  | console
  | noop
  deriving DecidableEq, Repr

/-- `get_progress_info` (`main.py` lines 54-78).  The bar variant is chosen
only when `progress_type == 'progressbar'` AND the optional `progressbar`
module imported successfully (`progressbarAvailable`); `'console'` chooses
the textual variant; anything else falls through to the no-op. -/
def get_progress_info (progress_type : String) (progressbarAvailable : Bool) :
    ProgressVariant :=
  if progress_type = "progressbar" && progressbarAvailable then ProgressVariant.bar
  else if progress_type = "console" then ProgressVariant.console
  else ProgressVariant.noop

/-- Whether the variant's callback is a real function (`None` for the no-op,
so the vendor library has nothing to invoke). -/
def hasCallback : ProgressVariant → Bool
  | ProgressVariant.noop => false
  | _ => true

/-- The console callback (`main.py` lines 73-75): it computes
`round(completed * 100.0 / total_size)` and prints it.  The division raises
ZeroDivisionError when `total_size = 0`; otherwise the write succeeds.  The
event records the raw pair; the floating-point rounding used only for
display is not modelled. -/
def consoleCallback (total_size completed : Nat) : Except PyExc Event :=
  if total_size = 0 then Except.error PyExc.zeroDivisionError
  else Except.ok (Event.consolePercent total_size completed)

/-- The bar callback (`main.py` lines 66-70): sets the bar's maximum on the
first call and updates it; it does not divide and cannot raise here. -/
def barCallback (total_size completed : Nat) : Except PyExc Event :=
  Except.ok (Event.barUpdate total_size completed)

/-- `progress.finish` for each variant.  For `console` and the no-op it is
`lambda: True` (lines 76 and 78), which cannot raise.  For the bar variant
it is `bar.finish` from the external progressbar library, modelled from the
spec ("finish() flushes/closes the indicator" and "must not raise") as
returning normally. -/
def progressFinish : ProgressVariant → Except PyExc Unit :=
  fun _ => Except.ok ()

/-! ## Category lookup (`get_category_id`, `main.py` lines 81-88) -/

/-- Modelled from the spec: `youtube_upload.categories.IDS` is not under
`src/`; the spec describes it only as "a static name→id table" mapping
category names to platform-defined numeric identifiers.  A representative
table; the theorems below are parametric in the table. -/
def IDS : List (String × Nat) :=
  [("Film & Animation", 1), ("Autos & Vehicles", 2), ("Music", 10),
   ("Pets & Animals", 15), ("Sports", 17), ("Gaming", 20),
   ("People & Blogs", 22), ("Comedy", 23), ("Entertainment", 24),
   ("News & Politics", 25), ("Howto & Style", 26), ("Education", 27),
   ("Science & Technology", 28), ("Nonprofits & Activism", 29)]

/-- `get_category_id` (`main.py` lines 81-88): a falsy category (absent or
the empty string) yields no category id; a known name yields `str(id)`;
any other name raises InvalidCategory. -/
def get_category_id (ids : List (String × Nat)) (category : Option String) :
    Except PyExc (Option String) :=
  match category with
  | none => Except.ok none
  | some c =>
    if c = "" then Except.ok none
    else
      match ids.lookup c with
      | some i => Except.ok (some (toString i))
      | none => Except.error (PyExc.invalidCategory (c ++ " is not a valid category"))

example : get_category_id IDS (some "Music") = Except.ok (some "10") := by decide

example : get_category_id IDS (some "Nope") =
    Except.error (PyExc.invalidCategory "Nope is not a valid category") := by decide

example : get_category_id IDS (some "") = Except.ok none := by decide

/-! ## Location parsing and the request body -/

/-- One `key=value` entry of the location string; an entry with no
equals sign is a parsing error. -/
def parseLocEntry (entry : String) : Except PyExc (String × String) :=
  match entry.data.dropWhile (fun c => c != '=') with
  | '=' :: v =>
    Except.ok (String.mk (entry.data.takeWhile (fun c => c != '=')), String.mk v)
  | _ => Except.error (PyExc.valueError ("invalid key=value pair: " ++ entry))

/-- Modelled from the spec: `lib.string_to_dict` is not under `src/`.  Per
the spec, the location string "latitude=VAL,longitude=VAL[,altitude=VAL]"
is parsed into a key-value mapping and "malformed strings fail with a
parsing error"; an absent string yields no mapping. -/
def string_to_dict : Option String → Except PyExc (Option (List (String × String)))
  | none => Except.ok none
  | some s => (fun l => some l) <$> (pySplitComma s).mapM parseLocEntry

/-- Modelled from the spec: `lib.to_utf8` is not under `src/`; it only
normalises the text encoding of the title (`main.py` line 93), which is the
identity on the character content; an absent title passes through. -/
def to_utf8 (s : Option String) : Option String := s

/-- Modelled from the spec: the `.decode("string-escape")` applied to the
description (`main.py` line 94) decodes backslash escapes into literal
text; it is the identity on escape-free text and no claim concerns the
description, so it is modelled as the identity. -/
def stringEscapeDecode (s : String) : String := s

/-- The `snippet` part of the request body (`main.py` lines 101-106). -/
structure Snippet where
  title : Option String
  tags : List String
  description : String
  categoryId : Option String
  deriving DecidableEq, Repr

/-- The request body built in `upload_video` (`main.py` lines 100-113). -/
structure RequestBody where
  snippet : Snippet
  privacyStatus : String
  location : Option (List (String × String))
  deriving DecidableEq, Repr

/-- The `complete_title` of `main.py` lines 93-97: the (encoding-normalised)
title verbatim unless `total_videos > 1`, in which case the title template
is formatted with `title`, `n = index+1`, `total = total_videos`. -/
def buildTitle (opts : Options) (total_videos index : Nat) :
    Except PyExc (Option String) :=
  let title := to_utf8 opts.title
  if total_videos > 1 then
    (fun s => some s) <$> pyFormat opts.title_template title (index + 1) total_videos
  else Except.ok title

/-- The request body construction of `upload_video` (`main.py` lines
93-113), in source evaluation order: the complete title (lines 93-97,
formatting can raise KeyError/ValueError), then the category lookup (line
99, can raise InvalidCategory), then the location parse inside the dict
literal (line 111, can raise), then the dict itself. -/
def build_body (ids : List (String × Nat)) (opts : Options)
    (total_videos index : Nat) : Except PyExc RequestBody :=
  match buildTitle opts total_videos index with
  | Except.error e => Except.error e
  | Except.ok complete_title =>
    match get_category_id ids opts.category with
    | Except.error e => Except.error e
    | Except.ok category_id =>
      match string_to_dict opts.location with
      | Except.error e => Except.error e
      | Except.ok loc =>
        Except.ok
          { snippet :=
              { title := complete_title
                tags := tagList opts.tags
                description := stringEscapeDecode (opts.description.getD "")
                categoryId := category_id }
            privacyStatus := opts.privacy
            location := loc }

example :
    build_body IDS { title := some "T", tags := some "a, b,c" } 1 0 =
      Except.ok
        { snippet :=
            { title := some "T", tags := ["a", "b", "c"], description := "",
              categoryId := none }
          privacyStatus := "public", location := none } := by decide

example :
    (build_body IDS { title := some "T" } 3 1).map
        (fun b => b.snippet.title) =
      Except.ok (some "T [2/3]") := by decide

/-! ## The vendor upload call and `upload_video` (`main.py` lines 91-120) -/

/-- Modelled from the spec: `youtube_upload.upload_video.upload` is not
under `src/`.  Per the spec it submits the bytes with the request body,
invoking `progress_callback(total_size, completed)` some number of times
during the transfer, and then either returns the new video id or raises.
One attempt records those callback invocations and the outcome. -/
structure UploadAttempt where
  events : List (Nat × Nat)
  outcome : Except PyExc String
  deriving DecidableEq, Repr

/-- Run the progress callback on each `(total_size, completed)` pair the
transfer reports, in order, for the active variant.  The no-op variant's
callback is `None`, so nothing is invoked; a callback that raises (the
console one, on a zero total) aborts the transfer with that exception. -/
def runCallbacks (v : ProgressVariant) :
    List (Nat × Nat) → List Event × Option PyExc
  | [] => ([], none)
  | (t, c) :: rest =>
    match v with
    | ProgressVariant.noop => runCallbacks v rest
    | ProgressVariant.bar =>
      match barCallback t c with
      | Except.ok ev =>
        let (es, err) := runCallbacks v rest
        (ev :: es, err)
      | Except.error e => ([], some e)
    | ProgressVariant.console =>
      match consoleCallback t c with
      | Except.ok ev =>
        let (es, err) := runCallbacks v rest
        (ev :: es, err)
      | Except.error e => ([], some e)

/-- `upload_video` (`main.py` lines 91-120): build the request body (lines
93-113; a failure there raises before anything is printed), print the
"Start upload" line (line 115), call the vendor upload with the progress
callback (line 117), and call `progress.finish()` (line 119) only after
the vendor call returns -- an upload that raises skips `finish`.
`get_progress_info` is called at line 98; it cannot raise, so building it
after the body does not change the observable behaviour. -/
def upload_video (ids : List (String × Nat)) (progressbarAvailable : Bool)
    (att : UploadAttempt) (opts : Options) (video_path : String)
    (total_videos index : Nat) : List Event × Except PyExc String :=
  match build_body ids opts total_videos index with
  | Except.error e => ([], Except.error e)
  | Except.ok body =>
    let progress := get_progress_info opts.progress_type progressbarAvailable
    let es0 := [Event.startUpload video_path
                  (match body.snippet.title with | none => "None" | some t => t),
                Event.vendorUpload index video_path]
    let (esCb, cbErr) := runCallbacks progress att.events
    match cbErr with
    | some e => (es0 ++ esCb, Except.error e)
    | none =>
      match att.outcome with
      | Except.error e => (es0 ++ esCb, Except.error e)
      | Except.ok video_id =>
        (es0 ++ esCb ++ [Event.finishCall], Except.ok video_id)

/-- `WATCH_VIDEO_URL.format(id=video_id)` (`main.py` lines 49 and 150). -/
def watchVideoUrl (video_id : String) : String :=
  "https://www.youtube.com/watch?v=" ++ video_id

/-- The per-file loop of `run_main` (`main.py` lines 148-152): files are
processed in argument order; a successful upload prints its "Video URL"
line and the loop continues with the next file; an exception propagates
immediately, abandoning the remaining files. -/
def upload_all (ids : List (String × Nat)) (progressbarAvailable : Bool)
    (atts : Nat → UploadAttempt) (opts : Options) (total : Nat) :
    Nat → List String → List Event × Except PyExc Unit
  | _, [] => ([], Except.ok ())
  | index, video_path :: rest =>
    let (es, r) :=
      upload_video ids progressbarAvailable (atts index) opts video_path total index
    match r with
    | Except.error e => (es, Except.error e)
    | Except.ok video_id =>
      let (es2, r2) :=
        upload_all ids progressbarAvailable atts opts total (index + 1) rest
      (es ++ [Event.videoUrl (watchVideoUrl video_id)] ++ es2, r2)

/-- The required-option check of `run_main` (`main.py` lines 125-126):
`title` is the only required option and `not getattr(options, "title")`
holds for an absent (`None`) or empty title. -/
def titleMissing (opts : Options) : Bool :=
  match opts.title with
  | none => true
  | some t => t = ""

/-- `run_main` (`main.py` lines 123-155).  The title check (lines 125-130)
runs first and raises OptionsMissing with no other effect.  The credential
path resolution (lines 131-140) touches only the filesystem and feeds the
single `auth.get_resource` call (line 144), which is repository code not
under `src/`; modelled from the spec as an oracle that either raises (a
vendor OAuth2 error), returns no handle (`Except.ok false`, upon which line
155 raises AuthenticationError), or returns a handle (`Except.ok true`,
upon which the per-file loop of lines 148-152 runs with
`total = len(args)`). -/
def run_main (ids : List (String × Nat)) (progressbarAvailable : Bool)
    (auth : Except PyExc Bool) (atts : Nat → UploadAttempt)
    (opts : Options) (args : List String) : List Event × Except PyExc Unit :=
  if titleMissing opts then
    ([], Except.error (PyExc.optionsMissing "Some required option are missing: title"))
  else
    match auth with
    | Except.error e => ([Event.authAttempt], Except.error e)
    | Except.ok false =>
      ([Event.authAttempt],
       Except.error (PyExc.authenticationError "Cannot get youtube resource"))
    | Except.ok true =>
      let (es, r) := upload_all ids progressbarAvailable atts opts args.length 0 args
      (Event.authAttempt :: es, r)

/-! ## Exit codes (`main.py` lines 40-47 and 200-201) -/

/-- `EXIT_CODES` (`main.py` lines 40-47), keyed by exception class. -/
def EXIT_CODES : PyExc → Option Nat
  | PyExc.optionsMissing _ => some 2
  | PyExc.invalidCategory _ => some 3
  | PyExc.authenticationError _ => some 4
  | PyExc.flowExchangeError => some 4
  | PyExc.accessTokenCredentialsError => some 5
  | PyExc.notImplementedError => some 6
  | _ => none

/-- Modelled from the spec: `lib.catch_exceptions` (`main.py` line 201) is
not under `src/`.  Per the spec, a successful run exits 0, an exception
whose class is in the table exits with that code, and "unlisted exceptions
map to a default non-zero code" -- the interpreter's default of 1. -/
def catch_exceptions (table : PyExc → Option Nat) (r : Except PyExc Unit) : Nat :=
  match r with
  | Except.ok _ => 0
  | Except.error e => (table e).getD 1

/-- The zero-based indices of the files whose vendor upload call was made,
in trace order. -/
def uploadedIdx (es : List Event) : List Nat :=
  es.filterMap fun e =>
    match e with
    | Event.vendorUpload i _ => some i
    | _ => none

example :
    run_main IDS false (Except.ok true)
        (fun _ => { events := [(100, 100)], outcome := Except.ok "xyz" })
        { title := some "T" } ["a.mp4"] =
      ([Event.authAttempt, Event.startUpload "a.mp4" "T",
        Event.vendorUpload 0 "a.mp4", Event.finishCall,
        Event.videoUrl "https://www.youtube.com/watch?v=xyz"],
       Except.ok ()) := by decide

example :
    run_main IDS false (Except.ok true)
        (fun _ => { events := [], outcome := Except.error PyExc.notImplementedError })
        { title := some "T" } ["a.mp4", "b.mp4"] =
      ([Event.authAttempt, Event.startUpload "a.mp4" "T [1/2]",
        Event.vendorUpload 0 "a.mp4"],
       Except.error PyExc.notImplementedError) := by decide

/-! ## Helper lemmas: the `str.format` call agrees with the simultaneous
substitution on brace-clean templates -/

set_option maxHeartbeats 1000000 in
lemma specSubst_cons (title : String) (n total : Nat) (c : Char) (rest : List Char)
    (h4 : c = '\x7b' → False) :
    specSubst title n total (c :: rest) = c :: specSubst title n total rest :=
  specSubst.eq_4 title n total c rest
    (fun _ hc _ => h4 hc) (fun _ hc _ => h4 hc) (fun _ hc _ => h4 hc)

set_option maxHeartbeats 1000000 in
lemma pyFormatAux_cons (title : Option String) (n total : Nat) (c : Char)
    (rest : List Char) (h4 : c = '\x7b' → False) (h5 : c = '\x7d' → False) :
    pyFormatAux title n total (c :: rest) =
      (fun l => c :: l) <$> pyFormatAux title n total rest :=
  pyFormatAux.eq_6 title n total c rest
    (fun _ hc _ => h4 hc) (fun _ hc _ => h5 hc) h4 h5

set_option maxHeartbeats 1000000 in
lemma braceClean_skip (head : Char) (rest : List Char)
    (h4 : head = '\x7b' → False) (h5 : head = '\x7d' → False) :
    braceClean (head :: rest) = braceClean rest :=
  braceClean.eq_6 head rest
    (fun _ hc _ => h4 hc) (fun _ hc _ => h4 hc) (fun _ hc _ => h4 hc) h4 h5

set_option maxHeartbeats 1000000 in
lemma braceClean_open_bad (tail : List Char)
    (h1 : ∀ rest, tail = 't' :: 'i' :: 't' :: 'l' :: 'e' :: '\x7d' :: rest → False)
    (h2 : ∀ rest, tail = 't' :: 'o' :: 't' :: 'a' :: 'l' :: '\x7d' :: rest → False)
    (h3 : ∀ rest, tail = 'n' :: '\x7d' :: rest → False) :
    braceClean ('\x7b' :: tail) = false :=
  braceClean.eq_4 tail h1 h2 h3

set_option maxHeartbeats 1000000 in
lemma braceClean_close_bad (tail : List Char) :
    braceClean ('\x7d' :: tail) = false :=
  braceClean.eq_5 tail

set_option maxHeartbeats 1000000 in
theorem format_of_braceClean (t : String) (n total : Nat) (l : List Char) :
    braceClean l = true →
    pyFormatAux (some t) n total l = Except.ok (specSubst t n total l) := by
  induction l using braceClean.induct with
  | case1 rest ih =>
    intro h
    rw [braceClean.eq_1] at h
    show (fun l => t.data ++ l) <$> pyFormatAux (some t) n total rest =
      Except.ok (specSubst t n total ('\x7b':: 't':: 'i':: 't':: 'l':: 'e':: '\x7d'::rest))
    rw [ih h]
    rfl
  | case2 rest ih =>
    intro h
    rw [braceClean.eq_2] at h
    show (fun l => (toString total).data ++ l) <$> pyFormatAux (some t) n total rest =
      Except.ok (specSubst t n total ('\x7b':: 't':: 'o':: 't':: 'a':: 'l':: '\x7d'::rest))
    rw [ih h]
    rfl
  | case3 rest ih =>
    intro h
    rw [braceClean.eq_3] at h
    show (fun l => (toString n).data ++ l) <$> pyFormatAux (some t) n total rest =
      Except.ok (specSubst t n total ('\x7b':: 'n':: '\x7d'::rest))
    rw [ih h]
    rfl
  | case4 tail h1 h2 h3 =>
    intro h
    rw [braceClean_open_bad tail h1 h2 h3] at h
    exact absurd h (by decide)
  | case5 tail =>
    intro h
    rw [braceClean_close_bad tail] at h
    exact absurd h (by decide)
  | case6 c rest h1 h2 h3 h4 h5 ih =>
    intro h
    rw [braceClean_skip c rest h4 h5] at h
    rw [pyFormatAux_cons (some t) n total c rest h4 h5]
    rw [ih h]
    rw [specSubst_cons t n total c rest h4]
    rfl
  | case7 =>
    intro _
    rfl

/-! ## Inversion of a successful request-body construction -/

lemma build_body_ok (ids : List (String × Nat)) (opts : Options) (N i : Nat)
    (body : RequestBody) (h : build_body ids opts N i = Except.ok body) :
    ∃ ct cid loc,
      buildTitle opts N i = Except.ok ct ∧
      get_category_id ids opts.category = Except.ok cid ∧
      string_to_dict opts.location = Except.ok loc ∧
      body = { snippet := { title := ct, tags := tagList opts.tags,
                            description := stringEscapeDecode (opts.description.getD ""),
                            categoryId := cid },
               privacyStatus := opts.privacy, location := loc } := by
  unfold build_body at h
  split at h
  · exact absurd h (by simp)
  · split at h
    · exact absurd h (by simp)
    · split at h
      · exact absurd h (by simp)
      · cases h
        exact ⟨_, _, _, by assumption, by assumption, by assumption, rfl⟩

/-! ## Claim theorems -/

/-- C3: the claim says that with the default `--progress-type` value
"progress" the reporter built by `get_progress_info` is one of the two
progress-emitting variants.  The code disagrees: `get_progress_info`
recognises only the strings 'progressbar' and 'console' (`main.py` lines
58 and 72), so the default "progress" (line 183) falls through to the
no-op variant whose callback is `None`, whether or not the progressbar
module is available.  This contradicts the option's own help text
"Progress display type (progress | console)". -/
theorem c3_default_progress_type_yields_noop :
    ∀ progressbarAvailable : Bool,
      get_progress_info DEFAULT_PROGRESS_TYPE progressbarAvailable =
          ProgressVariant.noop ∧
        hasCallback (get_progress_info DEFAULT_PROGRESS_TYPE progressbarAvailable) =
          false := by
  decide

/-- C9: the console progress callback divides `completed * 100.0` by
`total_size` with no guard (`main.py` line 74), so for `total_size = 0` it
raises ZeroDivisionError for every `completed`, and it succeeds whenever
`total_size > 0`. -/
theorem c9_console_callback_division_guard :
    (∀ completed, consoleCallback 0 completed =
        Except.error PyExc.zeroDivisionError) ∧
    (∀ total_size completed, 0 < total_size →
        ∃ ev, consoleCallback total_size completed = Except.ok ev) := by
  constructor
  · intro completed
    rfl
  · intro total_size completed ht
    refine ⟨Event.consolePercent total_size completed, ?_⟩
    unfold consoleCallback
    rw [if_neg (by omega)]

/-- Witness for C9 at `total_size = 0, completed = 7` and
`total_size = 100, completed = 50`. -/
theorem c9_console_callback_division_guard_witness :
    consoleCallback 0 7 = Except.error PyExc.zeroDivisionError ∧
    ∃ ev, consoleCallback 100 50 = Except.ok ev :=
  ⟨c9_console_callback_division_guard.1 7,
   c9_console_callback_division_guard.2 100 50 (by decide)⟩

/-- C7: for the tag string "a, b,c" the tag sequence placed in the request
body's snippet is exactly ["a", "b", "c"]: `main.py` line 103 splits on
commas and strips surrounding whitespace from each entry. -/
theorem c7_tags_split_and_trimmed (ids : List (String × Nat)) (opts : Options)
    (N i : Nat) (body : RequestBody) (ht : opts.tags = some "a, b,c")
    (h : build_body ids opts N i = Except.ok body) :
    body.snippet.tags = ["a", "b", "c"] := by
  obtain ⟨ct, cid, loc, _, _, _, rfl⟩ := build_body_ok ids opts N i body h
  show tagList opts.tags = ["a", "b", "c"]
  rw [ht]
  decide

/-- Witness for C7: a concrete single-file run with `--tags="a, b,c"`. -/
theorem c7_tags_split_and_trimmed_witness :
    ({ snippet := { title := some "T", tags := ["a", "b", "c"],
                    description := "", categoryId := none },
       privacyStatus := "public", location := none } : RequestBody).snippet.tags =
      ["a", "b", "c"] :=
  c7_tags_split_and_trimmed IDS { title := some "T", tags := some "a, b,c" } 1 0 _
    rfl (by decide)

/-- C10: when `--tags` is absent or empty, the tag sequence placed in the
request body is `[""]` -- a one-element list holding the empty string --
because `(options.tags or "").split(",")` on `""` yields `[""]` and
stripping does not remove empty entries (`main.py` line 103). -/
theorem c10_empty_tags_give_singleton_empty (ids : List (String × Nat))
    (opts : Options) (N i : Nat) (body : RequestBody)
    (ht : opts.tags = none ∨ opts.tags = some "")
    (h : build_body ids opts N i = Except.ok body) :
    body.snippet.tags = [""] := by
  obtain ⟨ct, cid, loc, _, _, _, rfl⟩ := build_body_ok ids opts N i body h
  show tagList opts.tags = [""]
  rcases ht with ht | ht <;> rw [ht] <;> decide

/-- Witness for C10: a concrete run with no `--tags`. -/
theorem c10_empty_tags_give_singleton_empty_witness :
    ({ snippet := { title := some "T", tags := [""],
                    description := "", categoryId := none },
       privacyStatus := "public", location := none } : RequestBody).snippet.tags =
      [""] :=
  c10_empty_tags_give_singleton_empty IDS { title := some "T" } 1 0 _
    (Or.inl rfl) (by decide)

/-- C5: when `--title` is absent (or empty, which optparse also treats as
falsy), `run_main` raises OptionsMissing immediately (`main.py` lines
125-130): the trace is empty, so no authentication attempt, credential
loading, network activity or upload happens. -/
theorem c5_missing_title_fails_before_auth (ids : List (String × Nat))
    (progressbarAvailable : Bool) (auth : Except PyExc Bool)
    (atts : Nat → UploadAttempt) (opts : Options) (args : List String)
    (h : titleMissing opts = true) :
    run_main ids progressbarAvailable auth atts opts args =
      ([], Except.error
        (PyExc.optionsMissing "Some required option are missing: title")) := by
  simp [run_main, h]

/-- Witness for C5: a concrete run with no `--title`. -/
theorem c5_missing_title_fails_before_auth_witness :
    run_main IDS false (Except.ok true)
        (fun _ => { events := [], outcome := Except.ok "x" })
        { title := none } ["a.mp4"] =
      ([], Except.error
        (PyExc.optionsMissing "Some required option are missing: title")) :=
  c5_missing_title_fails_before_auth IDS false (Except.ok true)
    (fun _ => { events := [], outcome := Except.ok "x" })
    { title := none } ["a.mp4"] rfl

/-- C4: the exit code is 0 on success, 2 for OptionsMissing, 3 for
InvalidCategory, 4 for AuthenticationError and the OAuth2
FlowExchangeError, 5 for AccessTokenCredentialsError, 6 for
NotImplementedError (`EXIT_CODES`, `main.py` lines 40-47), and the default
non-zero code 1 for any exception class not in the table. -/
theorem c4_exit_code_table :
    catch_exceptions EXIT_CODES (Except.ok ()) = 0 ∧
    (∀ m, catch_exceptions EXIT_CODES
        (Except.error (PyExc.optionsMissing m)) = 2) ∧
    (∀ m, catch_exceptions EXIT_CODES
        (Except.error (PyExc.invalidCategory m)) = 3) ∧
    (∀ m, catch_exceptions EXIT_CODES
        (Except.error (PyExc.authenticationError m)) = 4) ∧
    catch_exceptions EXIT_CODES (Except.error PyExc.flowExchangeError) = 4 ∧
    catch_exceptions EXIT_CODES (Except.error PyExc.accessTokenCredentialsError) = 5 ∧
    catch_exceptions EXIT_CODES (Except.error PyExc.notImplementedError) = 6 ∧
    (∀ e, EXIT_CODES e = none →
        catch_exceptions EXIT_CODES (Except.error e) = 1 ∧ (1 : Nat) ≠ 0) := by
  refine ⟨rfl, fun m => rfl, fun m => rfl, fun m => rfl, rfl, rfl, rfl,
    fun e he => ⟨?_, by decide⟩⟩
  simp [catch_exceptions, he]

/-- Witness for C4 at an unlisted exception class. -/
theorem c4_exit_code_table_witness :
    catch_exceptions EXIT_CODES (Except.error (PyExc.other "RuntimeError")) = 1 ∧
    (1 : Nat) ≠ 0 :=
  c4_exit_code_table.2.2.2.2.2.2.2 (PyExc.other "RuntimeError") rfl

/-- C1: the title placed in the request body is the literal `--title` value
verbatim when there is a single input file, and for N > 1 files it is the
title template with the placeholders `\x7btitle\x7d`, `\x7bn\x7d` and
`\x7btotal\x7d` simultaneously substituted by the title, i+1 and N
(`main.py` lines 93-97 and 102).  The brace-cleanliness hypothesis scopes
the claim to templates -- the default included -- whose braces are exactly
those placeholders, which is what the claim's "replaced" presupposes;
`format_of_braceClean` shows Python's `str.format` coincides with that
substitution there. -/
theorem c1_title_placed_in_body (ids : List (String × Nat)) (opts : Options)
    (N i : Nat) (t : String) (body : RequestBody)
    (ht : opts.title = some t)
    (hclean : braceClean opts.title_template.data = true)
    (h : build_body ids opts N i = Except.ok body) :
    (N = 1 → body.snippet.title = some t) ∧
    (N > 1 → body.snippet.title =
      some (String.mk (specSubst t (i + 1) N opts.title_template.data))) := by
  obtain ⟨ct, cid, loc, h1, _, _, rfl⟩ := build_body_ok ids opts N i body h
  constructor
  · rintro rfl
    show ct = some t
    unfold buildTitle at h1
    rw [if_neg (by omega)] at h1
    simp only [to_utf8, ht] at h1
    injection h1 with h1
    exact h1.symm
  · intro hN
    show ct = some (String.mk (specSubst t (i + 1) N opts.title_template.data))
    unfold buildTitle at h1
    rw [if_pos hN] at h1
    simp only [to_utf8, ht] at h1
    have hf := format_of_braceClean t (i + 1) N opts.title_template.data hclean
    rw [pyFormat] at h1
    simp only [pyFormat, hf] at h1
    injection h1 with h1
    exact h1.symm

/-- Witness for C1: two files with the default template, index 0. -/
theorem c1_title_placed_in_body_witness :
    (2 = 1 →
      ({ snippet := { title := some "My song [1/2]", tags := [""],
                      description := "", categoryId := none },
         privacyStatus := "public", location := none } : RequestBody).snippet.title =
        some "My song") ∧
    (2 > 1 →
      ({ snippet := { title := some "My song [1/2]", tags := [""],
                      description := "", categoryId := none },
         privacyStatus := "public", location := none } : RequestBody).snippet.title =
        some (String.mk (specSubst "My song" (0 + 1) 2 DEFAULT_TITLE_TEMPLATE.data))) :=
  c1_title_placed_in_body IDS { title := some "My song" } 2 0 "My song" _
    rfl (by decide) (by decide)

/-! ## C2: unrecognized category -/

lemma get_category_id_invalid (ids : List (String × Nat)) (c : String)
    (hne : c ≠ "") (hlk : ids.lookup c = none) :
    get_category_id ids (some c) =
      Except.error (PyExc.invalidCategory (c ++ " is not a valid category")) := by
  simp [get_category_id, hne, hlk]

/-- Counterexample to C2 as stated: the empty string is a `--category`
value that is not a name in the static category table, yet the run raises
no InvalidCategory and uploads the file, because `get_category_id` checks
`if category:` first (`main.py` line 83) and the empty string is falsy. -/
theorem c2_counterexample_empty_category :
    (IDS.map (fun p => p.1)).contains "" = false ∧
    run_main IDS false (Except.ok true)
        (fun _ => { events := [], outcome := Except.ok "xyz" })
        { title := some "T", category := some "" } ["a.mp4"] =
      ([Event.authAttempt, Event.startUpload "a.mp4" "T",
        Event.vendorUpload 0 "a.mp4", Event.finishCall,
        Event.videoUrl "https://www.youtube.com/watch?v=xyz"],
       Except.ok ()) := by
  decide

/-- C2 (amended): for a non-empty `--category` value not in the static
table, the run raises InvalidCategory while building the first file's
request body (`main.py` line 99, before the upload call at line 117), so
no upload of any file ever begins: the whole trace is the authentication
attempt alone.  The `hfmt` hypothesis keeps the title-template formatting
of lines 96-97, which the source evaluates before the category lookup,
from raising first. -/
theorem c2_invalid_category_aborts_before_upload (ids : List (String × Nat))
    (progressbarAvailable : Bool) (atts : Nat → UploadAttempt) (opts : Options)
    (args : List String) (c : String)
    (hc : opts.category = some c) (hne : c ≠ "") (hlk : ids.lookup c = none)
    (htm : titleMissing opts = false)
    (hfmt : ∃ s, buildTitle opts args.length 0 = Except.ok s)
    (hargs : args ≠ []) :
    run_main ids progressbarAvailable (Except.ok true) atts opts args =
      ([Event.authAttempt],
       Except.error (PyExc.invalidCategory (c ++ " is not a valid category"))) := by
  obtain ⟨s, hs⟩ := hfmt
  cases args with
  | nil => exact absurd rfl hargs
  | cons a rest =>
    simp only [List.length_cons] at hs
    have hb : build_body ids opts (rest.length + 1) 0 =
        Except.error (PyExc.invalidCategory (c ++ " is not a valid category")) := by
      simp only [build_body, hs, hc, get_category_id_invalid ids c hne hlk]
    have h1 : upload_video ids progressbarAvailable (atts 0) opts a
        (rest.length + 1) 0 =
        ([], Except.error (PyExc.invalidCategory (c ++ " is not a valid category"))) := by
      simp only [upload_video, hb]
    have h2 : upload_all ids progressbarAvailable atts opts (rest.length + 1) 0
        (a :: rest) =
        ([], Except.error (PyExc.invalidCategory (c ++ " is not a valid category"))) := by
      simp only [upload_all, h1]
    simp only [run_main, htm, Bool.false_eq_true, if_false, List.length_cons, h2]

/-- Witness for the amended C2: category "Nope" on a one-file run. -/
theorem c2_invalid_category_aborts_before_upload_witness :
    run_main IDS false (Except.ok true)
        (fun _ => { events := [], outcome := Except.ok "xyz" })
        { title := some "T", category := some "Nope" } ["a.mp4"] =
      ([Event.authAttempt],
       Except.error (PyExc.invalidCategory ("Nope" ++ " is not a valid category"))) :=
  c2_invalid_category_aborts_before_upload IDS false
    (fun _ => { events := [], outcome := Except.ok "xyz" })
    { title := some "T", category := some "Nope" } ["a.mp4"] "Nope"
    rfl (by decide) (by decide) rfl ⟨some "T", by decide⟩ (by decide)

/-! ## C8: progress finish discipline -/

lemma runCallbacks_no_finish (v : ProgressVariant) (evs : List (Nat × Nat)) :
    Event.finishCall ∉ (runCallbacks v evs).1 := by
  induction evs with
  | nil => cases v <;> simp [runCallbacks]
  | cons p rest ih =>
    obtain ⟨t, c⟩ := p
    cases v with
    | noop => simpa [runCallbacks] using ih
    | bar =>
      rcases hrc : runCallbacks ProgressVariant.bar rest with ⟨es, err⟩
      simp only [runCallbacks, barCallback, hrc]
      rw [hrc] at ih
      simpa using ih
    | console =>
      rcases hrc : runCallbacks ProgressVariant.console rest with ⟨es, err⟩
      rw [hrc] at ih
      by_cases h0 : t = 0
      · simp [runCallbacks, consoleCallback, h0]
      · simp only [runCallbacks, consoleCallback, h0, if_false, hrc]
        simpa using ih

lemma upload_video_ok_shape (ids : List (String × Nat))
    (progressbarAvailable : Bool) (att : UploadAttempt) (opts : Options)
    (path : String) (N i : Nat) (vid : String) (es : List Event)
    (h : upload_video ids progressbarAvailable att opts path N i =
      (es, Except.ok vid)) :
    ∃ body,
      build_body ids opts N i = Except.ok body ∧
      att.outcome = Except.ok vid ∧
      es = Event.startUpload path
             (match body.snippet.title with | none => "None" | some t => t) ::
           Event.vendorUpload i path ::
           ((runCallbacks (get_progress_info opts.progress_type
               progressbarAvailable) att.events).1 ++ [Event.finishCall]) := by
  unfold upload_video at h
  rcases hb : build_body ids opts N i with e | body
  · rw [hb] at h
    simp at h
  · rw [hb] at h
    simp only [] at h
    rcases hrc : runCallbacks (get_progress_info opts.progress_type
        progressbarAvailable) att.events with ⟨esCb, cbErr⟩
    rw [hrc] at h
    cases cbErr with
    | some e => simp at h
    | none =>
      rcases ho : att.outcome with e | vid2
      · rw [ho] at h
        simp at h
      · rw [ho] at h
        simp only [Prod.mk.injEq] at h
        obtain ⟨hes, hvid⟩ := h
        injection hvid with hvid
        subst hvid
        exact ⟨body, rfl, rfl, by simpa using hes.symm⟩

/-- Counterexample to C8 as stated: an upload whose vendor call raises
invokes `finish()` zero times, not once, because `progress.finish()`
(`main.py` line 119) only runs after line 117 returns -- here a callback
has already fired, so the transfer was under way. -/
theorem c8_counterexample_failed_upload_skips_finish :
    ((upload_video IDS false
        { events := [(100, 50)], outcome := Except.error (PyExc.other "HttpError") }
        { title := some "T", progress_type := "console" } "a.mp4" 1 0).1.count
        Event.finishCall = 0) ∧
    (Event.consolePercent 100 50 ∈
      (upload_video IDS false
        { events := [(100, 50)], outcome := Except.error (PyExc.other "HttpError") }
        { title := some "T", progress_type := "console" } "a.mp4" 1 0).1) ∧
    ((upload_video IDS false
        { events := [(100, 50)], outcome := Except.error (PyExc.other "HttpError") }
        { title := some "T", progress_type := "console" } "a.mp4" 1 0).2 =
      Except.error (PyExc.other "HttpError")) := by
  decide

/-- C8 (amended): for every upload that completes successfully, whichever
progress variant is active, `finish()` is invoked exactly once, strictly
after the last progress callback (it is the final event of the upload's
trace), and `finish` does not raise; an upload that raises never invokes
`finish` (see the counterexample). -/
theorem c8_successful_upload_finishes_exactly_once (ids : List (String × Nat))
    (progressbarAvailable : Bool) (att : UploadAttempt) (opts : Options)
    (path : String) (N i : Nat) (vid : String) (es : List Event)
    (h : upload_video ids progressbarAvailable att opts path N i =
      (es, Except.ok vid)) :
    es.count Event.finishCall = 1 ∧
    (∃ es1, es = es1 ++ [Event.finishCall] ∧ Event.finishCall ∉ es1) ∧
    progressFinish (get_progress_info opts.progress_type progressbarAvailable) =
      Except.ok () := by
  obtain ⟨body, hb, ho, hes⟩ :=
    upload_video_ok_shape ids progressbarAvailable att opts path N i vid es h
  have hno := runCallbacks_no_finish
    (get_progress_info opts.progress_type progressbarAvailable) att.events
  subst hes
  refine ⟨?_, ⟨Event.startUpload path
      (match body.snippet.title with | none => "None" | some t => t) ::
      Event.vendorUpload i path ::
      (runCallbacks (get_progress_info opts.progress_type progressbarAvailable)
        att.events).1, by simp, ?_⟩, rfl⟩
  · simp [List.count_cons, List.count_append, List.count_eq_zero.mpr hno]
  · simp [hno]

/-- Witness for the amended C8: a successful console-variant upload with
two progress callbacks. -/
theorem c8_successful_upload_finishes_exactly_once_witness :
    ([Event.startUpload "a.mp4" "T", Event.vendorUpload 0 "a.mp4",
      Event.consolePercent 100 50, Event.consolePercent 100 100,
      Event.finishCall].count Event.finishCall = 1) ∧
    (∃ es1,
      [Event.startUpload "a.mp4" "T", Event.vendorUpload 0 "a.mp4",
       Event.consolePercent 100 50, Event.consolePercent 100 100,
       Event.finishCall] = es1 ++ [Event.finishCall] ∧
      Event.finishCall ∉ es1) ∧
    progressFinish (get_progress_info "console" false) = Except.ok () :=
  c8_successful_upload_finishes_exactly_once IDS false
    { events := [(100, 50), (100, 100)], outcome := Except.ok "xyz" }
    { title := some "T", progress_type := "console" } "a.mp4" 1 0 "xyz" _
    (by decide)

/-! ## C6: sequential processing and abort on failure -/

lemma runCallbacks_uploadedIdx (v : ProgressVariant) (evs : List (Nat × Nat)) :
    uploadedIdx (runCallbacks v evs).1 = [] := by
  induction evs with
  | nil => cases v <;> simp [runCallbacks, uploadedIdx]
  | cons p rest ih =>
    obtain ⟨t, c⟩ := p
    cases v with
    | noop => simpa [runCallbacks] using ih
    | bar =>
      rcases hrc : runCallbacks ProgressVariant.bar rest with ⟨es, err⟩
      rw [hrc] at ih
      simp only [runCallbacks, barCallback, hrc]
      simpa [uploadedIdx] using ih
    | console =>
      rcases hrc : runCallbacks ProgressVariant.console rest with ⟨es, err⟩
      rw [hrc] at ih
      by_cases h0 : t = 0
      · simp [runCallbacks, consoleCallback, h0, uploadedIdx]
      · simp only [runCallbacks, consoleCallback, h0, if_false, hrc]
        simpa [uploadedIdx] using ih

lemma uploadedIdx_append (a b : List Event) :
    uploadedIdx (a ++ b) = uploadedIdx a ++ uploadedIdx b := by
  simp [uploadedIdx, List.filterMap_append]

lemma upload_video_ok_uploadedIdx (ids : List (String × Nat))
    (progressbarAvailable : Bool) (att : UploadAttempt) (opts : Options)
    (path : String) (N i : Nat) (vid : String) (es : List Event)
    (h : upload_video ids progressbarAvailable att opts path N i =
      (es, Except.ok vid)) :
    uploadedIdx es = [i] := by
  obtain ⟨body, hb, ho, hes⟩ :=
    upload_video_ok_shape ids progressbarAvailable att opts path N i vid es h
  subst hes
  have hcb := runCallbacks_uploadedIdx
    (get_progress_info opts.progress_type progressbarAvailable) att.events
  simp [uploadedIdx, List.filterMap_append] at hcb ⊢
  exact hcb

lemma upload_video_err_uploadedIdx (ids : List (String × Nat))
    (progressbarAvailable : Bool) (att : UploadAttempt) (opts : Options)
    (path : String) (N i : Nat) (e : PyExc) (es : List Event)
    (h : upload_video ids progressbarAvailable att opts path N i =
      (es, Except.error e)) :
    uploadedIdx es = [] ∨ uploadedIdx es = [i] := by
  have hcb := runCallbacks_uploadedIdx
    (get_progress_info opts.progress_type progressbarAvailable) att.events
  unfold upload_video at h
  rcases hb : build_body ids opts N i with e2 | body
  · rw [hb] at h
    simp only [Prod.mk.injEq] at h
    left
    rw [← h.1]
    rfl
  · rw [hb] at h
    simp only [] at h
    rcases hrc : runCallbacks (get_progress_info opts.progress_type
        progressbarAvailable) att.events with ⟨esCb, cbErr⟩
    rw [hrc] at h
    rw [hrc] at hcb
    cases cbErr with
    | some e3 =>
      simp only [Prod.mk.injEq] at h
      right
      rw [← h.1]
      simpa [uploadedIdx, List.filterMap_append] using hcb
    | none =>
      rcases ho : att.outcome with e4 | vid
      · rw [ho] at h
        simp only [Prod.mk.injEq] at h
        right
        rw [← h.1]
        simpa [uploadedIdx, List.filterMap_append] using hcb
      · rw [ho] at h
        simp at h

lemma upload_all_error_shape (ids : List (String × Nat)) (pb : Bool)
    (atts : Nat → UploadAttempt) (opts : Options) (total : Nat)
    (paths : List String) :
    ∀ (d : Nat) (es : List Event) (e : PyExc),
    upload_all ids pb atts opts total d paths = (es, Except.error e) →
    ∃ k p esk,
      k < paths.length ∧
      paths[k]? = some p ∧
      upload_video ids pb (atts (d + k)) opts p total (d + k) =
        (esk, Except.error e) ∧
      (uploadedIdx es = List.range' d k ∨
       uploadedIdx es = List.range' d (k + 1)) := by
  induction paths with
  | nil =>
    intro d es e h
    simp [upload_all] at h
  | cons a rest ih =>
    intro d es e h
    unfold upload_all at h
    rcases hv : upload_video ids pb (atts d) opts a total d with ⟨es1, r1⟩
    rw [hv] at h
    cases r1 with
    | error e1 =>
      simp only [Prod.mk.injEq] at h
      obtain ⟨hes, he⟩ := h
      injection he with he
      subst he
      refine ⟨0, a, es1, by simp, by simp, ?_, ?_⟩
      · rw [Nat.add_zero]
        exact hv
      · rw [← hes]
        rcases upload_video_err_uploadedIdx ids pb (atts d) opts a total d e1 es1 hv
          with h0 | h1
        · left
          simpa using h0
        · right
          simpa using h1
    | ok vid =>
      rcases h2 : upload_all ids pb atts opts total (d + 1) rest with ⟨es2, r2⟩
      rw [h2] at h
      simp only [Prod.mk.injEq] at h
      obtain ⟨hes, he⟩ := h
      subst he
      obtain ⟨k, p, esk, hk, hp, hu, hidx⟩ := ih (d + 1) es2 e h2
      have hd : d + (k + 1) = (d + 1) + k := by omega
      refine ⟨k + 1, p, esk, by simpa using hk, by simpa using hp, ?_, ?_⟩
      · rw [hd]
        exact hu
      · have h1 : uploadedIdx es1 = [d] :=
          upload_video_ok_uploadedIdx ids pb (atts d) opts a total d vid es1 hv
        rw [← hes, uploadedIdx_append, uploadedIdx_append, h1]
        have hurl : uploadedIdx [Event.videoUrl (watchVideoUrl vid)] = [] := rfl
        rcases hidx with hi | hi
        · left
          rw [hurl, hi, List.range'_succ]
          simp
        · right
          have h12 : d + 1 + 1 = d + 2 := by omega
          rw [hurl, hi, List.range'_succ, List.range'_succ, h12]
          simp
          rw [List.range'_succ, h12]

lemma mem_uploadedIdx (j : Nat) (q : String) (es : List Event)
    (hm : Event.vendorUpload j q ∈ es) : j ∈ uploadedIdx es := by
  simp only [uploadedIdx, List.mem_filterMap]
  exact ⟨Event.vendorUpload j q, hm, rfl⟩

/-- C6: for a batch of two or more files whose run fails with exception
`e`, the failure happened at some file index i: that file's `upload_video`
raised `e`, the vendor upload calls made are exactly those of indices
0..i-1 (plus possibly i itself, when the failure hit during rather than
before its transfer) in strictly increasing argument order, no index
greater than i is ever uploaded, and the process exit code is the table
entry for `e` (or the default 1 when unmapped).  This is the loop of
`main.py` lines 148-152: an exception propagates immediately and
abandons the remaining files. -/
theorem c6_failure_stops_batch (ids : List (String × Nat)) (pb : Bool)
    (atts : Nat → UploadAttempt) (opts : Options) (args : List String)
    (es : List Event) (e : PyExc)
    (hlen : 2 ≤ args.length)
    (htm : titleMissing opts = false)
    (h : run_main ids pb (Except.ok true) atts opts args = (es, Except.error e)) :
    ∃ i p esi,
      i < args.length ∧
      args[i]? = some p ∧
      upload_video ids pb (atts i) opts p args.length i = (esi, Except.error e) ∧
      (uploadedIdx es = List.range i ∨ uploadedIdx es = List.range (i + 1)) ∧
      (∀ j q, Event.vendorUpload j q ∈ es → j ≤ i) ∧
      catch_exceptions EXIT_CODES
          (run_main ids pb (Except.ok true) atts opts args).2 =
        (EXIT_CODES e).getD 1 := by
  have hcopy := h
  unfold run_main at h
  simp only [htm, Bool.false_eq_true, if_false] at h
  rcases hua : upload_all ids pb atts opts args.length 0 args with ⟨es2, r2⟩
  rw [hua] at h
  simp only [Prod.mk.injEq] at h
  obtain ⟨hes, hr⟩ := h
  subst hr
  obtain ⟨k, p, esk, hk, hp, hu, hidx⟩ :=
    upload_all_error_shape ids pb atts opts args.length args 0 es2 e hua
  simp only [Nat.zero_add] at hu
  refine ⟨k, p, esk, hk, hp, hu, ?_, ?_, ?_⟩
  · rw [← hes]
    have hcons : uploadedIdx (Event.authAttempt :: es2) = uploadedIdx es2 := rfl
    rw [hcons]
    rcases hidx with hi | hi
    · left
      rw [hi, List.range_eq_range']
    · right
      rw [hi, List.range_eq_range']
  · intro j q hm
    rw [← hes] at hm
    have hj : j ∈ uploadedIdx es2 := by
      rw [List.mem_cons] at hm
      rcases hm with hm | hm
      · exact absurd hm (by simp)
      · exact mem_uploadedIdx j q es2 hm
    rcases hidx with hi | hi <;> rw [hi] at hj <;>
      simp only [List.mem_range'_1] at hj <;> omega
  · rw [hcopy]
    rfl

/-- Witness for C6: two files whose first upload raises
NotImplementedError; only file 0 is attempted and the exit code is 6. -/
theorem c6_failure_stops_batch_witness :
    ∃ i p esi,
      i < (["a.mp4", "b.mp4"] : List String).length ∧
      (["a.mp4", "b.mp4"] : List String)[i]? = some p ∧
      upload_video IDS false
          { events := [], outcome := Except.error PyExc.notImplementedError }
          { title := some "T" } p (["a.mp4", "b.mp4"] : List String).length i =
        (esi, Except.error PyExc.notImplementedError) ∧
      (uploadedIdx [Event.authAttempt, Event.startUpload "a.mp4" "T [1/2]",
          Event.vendorUpload 0 "a.mp4"] = List.range i ∨
       uploadedIdx [Event.authAttempt, Event.startUpload "a.mp4" "T [1/2]",
          Event.vendorUpload 0 "a.mp4"] = List.range (i + 1)) ∧
      (∀ j q, Event.vendorUpload j q ∈
          [Event.authAttempt, Event.startUpload "a.mp4" "T [1/2]",
           Event.vendorUpload 0 "a.mp4"] → j ≤ i) ∧
      catch_exceptions EXIT_CODES
          (run_main IDS false (Except.ok true)
            (fun _ =>
              { events := [], outcome := Except.error PyExc.notImplementedError })
            { title := some "T" } ["a.mp4", "b.mp4"]).2 =
        (EXIT_CODES PyExc.notImplementedError).getD 1 :=
  c6_failure_stops_batch IDS false
    (fun _ => { events := [], outcome := Except.error PyExc.notImplementedError })
    { title := some "T" } ["a.mp4", "b.mp4"]
    [Event.authAttempt, Event.startUpload "a.mp4" "T [1/2]",
     Event.vendorUpload 0 "a.mp4"] PyExc.notImplementedError
    (by decide) rfl (by decide)
